import Mathlib

/-!
Verification of the per-agent execution and transactional commit engine of
the holochain repository, as a shallow embedding of the relevant Rust code:

* `crates/holochain_sqlite/src/env.rs` — `DbConnection`, `EnvironmentKind`,
  the process-wide `INITIALIZED_DBS` registry, `ReadManager` / `WriteManager`.
* `crates/holochain/src/conductor/cell.rs` — `Cell`, its `Hash` / `PartialEq`
  implementations, `Cell::create`.
* `crates/state/src/env.rs` — `create_lmdb_env` (rkv `Manager::singleton`).
* The Workflow Runner / CommitBundle layer, which is not present in the
  sources; where a claim depends on it, the definition is modelled from the
  spec and marked as such in its doc comment.

Filesystem and SQLite behaviour that is environmental (whether `create_dir`,
`Connection::open` or `remove_dir_all` succeeds) is supplied by oracle
functions carried in the `World` state.  Each call to `Connection::open` is
given a fresh numeric identity (`connId`), so that "the identical underlying
handle" versus "two independently opened handles" is expressible.
-/

namespace HolochainSpec

/-- Filesystem paths, as plain strings (`PathBuf`). -/
abbrev DbPath := String

/-- `PathBuf::join`. -/
def pathJoin (a b : DbPath) : DbPath := a ++ "/" ++ b

/-- `CellId`: composite key (DnaHash, AgentPubKey), both modelled as strings
(`crates/holochain/src/conductor/cell.rs` uses `holochain_zome_types::cell::CellId`,
whose definition is outside the given sources; the composite-key structure is
taken from the spec's data model and from `dna_hash()` / `agent_pubkey()` in
`cell.rs`). -/
structure CellId where
  dnaHash : String
  agentPubkey : String
deriving DecidableEq, Repr

/-- Modelled from the spec: the `Display` rendering of a `CellId`
(`cell_id.to_string()` in `EnvironmentKind::path`); the `Display` impl itself
is not under the given sources.  The spec only requires it to be a pure
function of the id ("the cell-id string"), which any fixed formula gives. -/
def CellId.display (c : CellId) : String :=
  c.dnaHash ++ "::" ++ c.agentPubkey

/-- `EnvironmentKind` from `holochain_sqlite/src/env.rs`. -/
inductive EnvironmentKind where
  | Cell (cellId : CellId)
  | Conductor
  | Wasm
  | P2p
deriving DecidableEq, Repr

/-- `EnvironmentKind::path` from `holochain_sqlite/src/env.rs` lines 216-226:
`Cell(cell_id) => PathBuf::from(cell_id.to_string())`, `Conductor =>
"conductor"`, `Wasm => "wasm"`, `P2p => "p2p"`. -/
def EnvironmentKind.path : EnvironmentKind → DbPath
  | .Cell cellId => cellId.display
  | .Conductor => "conductor"
  | .Wasm => "wasm"
  | .P2p => "p2p"

/-! ## The `WriteManager::with_commit` transaction wrapper

`impl WriteManager for DbConnection` (env.rs lines 269-280):

    let mut txn = self.txn()?;
    let result = f(&mut txn)?;
    txn.commit()?;
    Ok(result)

The transaction is a mutable view seeded from the durable state; on `Err`
the `?` operator returns the error unchanged and the dropped transaction
rolls back (rusqlite's default drop behaviour), leaving the durable state
untouched; on `Ok` the transaction is committed into the durable state.
`txn()` (BEGIN) and `commit()` failures are environmental SQLite errors and
are modelled as succeeding.  An event trace records each invocation of `f`
and the commit/rollback outcome, so that "invoked exactly once, never
silently retried" is expressible. -/

/-- Events produced by one `with_commit` call. -/
inductive TxnEvent where
  | callF
  | commitTxn
  | rollbackTxn
deriving DecidableEq, Repr

/-- `WriteManager::with_commit` for `DbConnection`, over an abstract durable
state `σ`: open a transaction on the durable state, run `f` once, commit on
`Ok`, roll back (drop) on `Err` propagating the error unchanged.  Returns
the result, the durable state after the call, and the event trace. -/
def withCommit {σ E R : Type} (durable : σ) (f : σ → Except E (R × σ)) :
    (Except E R × σ) × List TxnEvent :=
  match f durable with
  | .error e => ((.error e, durable), [.callF, .rollbackTxn])
  | .ok (r, t) => ((.ok r, t), [.callF, .commitTxn])

/-- Number of times `f` was invoked in a trace. -/
def callCount (tr : List TxnEvent) : Nat :=
  (tr.filter (fun ev => ev == TxnEvent.callF)).length

/-! ## `DbConnection` and the process-wide `INITIALIZED_DBS` registry

`DbConnection::new` (env.rs lines 144-162), transcribed:

    let mut map = INITIALIZED_DBS.write();
    let path = path_prefix.join(kind.path());
    if !path.exists() {
        std::fs::create_dir(path.clone())
            .map_err(|_e| DatabaseError::EnvironmentMissing(path.clone()))?;
    }
    let added = map.insert(path.clone());
    if !added {
        tracing::debug!("Initializing database for path {:?}", path);
        initialize_databases()?;
    }
    let env = DbConnection::from_path_and_keystore(path, keystore);
    Ok(env)

Note the guard as written: `HashSet::insert` returns `true` when the value
was newly inserted, so `initialize_databases()` runs only when the path was
ALREADY registered.  The embedding reproduces this literally; the claims
about one-time initialization are judged against it.

The keystore is an opaque capability unused by any claim and is omitted.
`initialize_databases` itself is not under the given sources; it is modelled
as an always-succeeding action whose invocation is recorded in the
`initEvents` trace of the world. -/

/-- `DatabaseError` variants relevant to the embedded operations. -/
inductive DatabaseError where
  | EnvironmentMissing (path : DbPath)
  | IoError
deriving DecidableEq, Repr

/-- Result of a fallible Rust call: `Ok`, `Err`, or a `panic` (e.g. via
`.expect(..)`), which is neither success nor an error value. -/
inductive Outcome (E A : Type) where
  | ok (a : A)
  | err (e : E)
  | panicked
deriving DecidableEq, Repr

/-- `DbConnection`: the path it was opened on plus the identity of the
underlying SQLite connection object.  Each `Connection::open` call in the
source yields a fresh connection object; `connId` records that identity. -/
structure DbConnection where
  path : DbPath
  connId : Nat
deriving DecidableEq, Repr

/-- Process-wide state threaded through the embedded operations:
the `INITIALIZED_DBS` registry, the set of on-disk directories, oracles for
environmental filesystem/SQLite failures, the next fresh connection
identity, and the trace of `initialize_databases()` invocations (tagged with
the path being opened when the call happened). -/
structure World where
  initializedDbs : List DbPath
  dirs : List DbPath
  createDirFails : DbPath → Bool
  connOpenFails : DbPath → Bool
  removeDirFails : DbPath → Bool
  nextConnId : Nat
  initEvents : List DbPath

/-- `DbConnection::from_path_and_keystore` (env.rs lines 164-172):
`Connection::open(&path).expect("Could not establish connection ...")` —
on failure this is a panic, not an `Err`; on success a fresh connection
object is created. -/
def fromPathAndKeystore (w : World) (path : DbPath) :
    Outcome DatabaseError DbConnection × World :=
  if w.connOpenFails path then
    (.panicked, w)
  else
    (.ok { path := path, connId := w.nextConnId },
     { w with nextConnId := w.nextConnId + 1 })

/-- `impl Clone for DbConnection` (env.rs lines 136-140): clone re-runs
`from_path_and_keystore` on the same path, opening a new connection. -/
def dbClone (w : World) (c : DbConnection) : Outcome DatabaseError DbConnection × World :=
  fromPathAndKeystore w c.path

/-- The registration half of `DbConnection::new` (after the directory
check): `let added = map.insert(path); if !added { initialize_databases()?; }`
followed by `from_path_and_keystore` — with the `!added` guard exactly as it
appears in the source. -/
def dbNewRegister (w : World) (path : DbPath) :
    Outcome DatabaseError DbConnection × World :=
  let added : Bool := ! (w.initializedDbs.contains path)
  let w1 := if added then { w with initializedDbs := path :: w.initializedDbs } else w
  let w2 := if ! added then { w1 with initEvents := path :: w1.initEvents } else w1
  fromPathAndKeystore w2 path

/-- `DbConnection::new` (env.rs lines 144-162): join the kind sub-path onto
the prefix, create the directory if missing (`EnvironmentMissing` on
failure), then register and open (see `dbNewRegister`). -/
def dbNew (w : World) (root : DbPath) (kind : EnvironmentKind) :
    Outcome DatabaseError DbConnection × World :=
  let path := pathJoin root kind.path
  if path ∈ w.dirs then
    dbNewRegister w path
  else if w.createDirFails path then
    (.err (.EnvironmentMissing path), w)
  else
    dbNewRegister { w with dirs := path :: w.dirs } path

/-- `DbConnection::remove` (env.rs lines 193-200):

    let mut map = INITIALIZED_DBS.write();
    map.remove(&self.path);
    std::fs::remove_dir_all(&self.path)?;
    Ok(())

The registry entry is removed first; only then is the directory deleted,
and a deletion failure is returned as an error with the registry entry
already gone. -/
def dbRemove (w : World) (c : DbConnection) : Outcome DatabaseError Unit × World :=
  let w1 := { w with initializedDbs := w.initializedDbs.filter (fun q => q != c.path) }
  if w.removeDirFails c.path then
    (.err .IoError, w1)
  else
    (.ok (), { w1 with dirs := w1.dirs.filter (fun q => q != c.path) })

/-- The rkv handle manager of `create_lmdb_env`
(`crates/state/src/env.rs`): `Manager::singleton()` keeps one registered
handle per path. -/
structure RkvManager where
  handles : List (DbPath × Nat)
  nextHandleId : Nat
deriving Repr

/-- `create_lmdb_env` (`crates/state/src/env.rs` lines 11-34):
`Manager::singleton().write().unwrap().get_or_create(path, ...)` — returns
the already-registered handle for `path` when one exists, otherwise creates
a fresh handle, registers it and returns it. -/
def createLmdbEnv (m : RkvManager) (path : DbPath) : Nat × RkvManager :=
  match m.handles.find? (fun q => q.1 == path) with
  | some q => (q.2, m)
  | none =>
      (m.nextHandleId,
       { handles := (path, m.nextHandleId) :: m.handles,
         nextHandleId := m.nextHandleId + 1 })

/-! ## `Cell` (`crates/holochain/src/conductor/cell.rs`) -/

/-- Opaque stand-in for `CellConductorApi` (a capability handle; its
contents never enter equality, hashing or any claim). -/
abbrev ConductorApiToken := Nat

/-- `Cell` (cell.rs lines 55-59): id, conductor API handle, and its state
environment. -/
structure Cell where
  id : CellId
  conductorApi : ConductorApiToken
  stateEnv : DbConnection
deriving Repr

/-- `impl PartialEq for Cell` (cell.rs lines 40-44): `self.id == other.id`
— structural equality of the ids only. -/
def cellEq (a b : Cell) : Bool := decide (a.id = b.id)

/-- `impl Hash for Cell` (cell.rs lines 31-38): `self.id.hash(state)` —
only the id is fed to the hasher; parametrised over an arbitrary hasher on
`CellId`. -/
def cellHash (hasher : CellId → Nat) (c : Cell) : Nat := hasher c.id

/-- Errors of `Cell::create` (`CellResult`): a database error wrapped as a
construction error. -/
inductive CellError where
  | DbError (e : DatabaseError)
deriving DecidableEq, Repr

/-- `Cell::create` (cell.rs lines 62-79): build the conductor API handle,
open the environment via `Environment::new(env_path,
EnvironmentKind::Cell(id), keystore)?` (which is `DbConnection::new`), and
return the `Cell`; a `?`-propagated database error becomes a construction
error, and a panic inside the open propagates as a panic. -/
def cellCreate (w : World) (id : CellId) (api : ConductorApiToken) (envPath : DbPath) :
    Outcome CellError Cell × World :=
  match dbNew w envPath (.Cell id) with
  | (.ok conn, w1) => (.ok { id := id, conductorApi := api, stateEnv := conn }, w1)
  | (.err e, w1) => (.err (.DbError e), w1)
  | (.panicked, w1) => (.panicked, w1)

/-! ## Workflow Runner and CommitBundle (modelled from the spec)

The Workflow Runner, the CommitBundle and the stale-head check are not
under the given sources (`cell.rs` only delegates to `WorkflowRunner`,
whose module is absent); the definitions below are modelled from spec
sections 3, 4.4 and 8. -/

/-- Chain heads, abstract (the spec leaves hashing abstract; what matters
is equality and advancement). -/
abbrev ChainHash := Nat

/-- Chain entries, abstract payloads. -/
abbrev ChainEntry := String

/-- Modelled from the spec: durable chain storage for one Cell — persisted
head plus the committed, chain-ordered entries. -/
structure ChainStore where
  head : ChainHash
  entries : List ChainEntry
deriving DecidableEq, Repr

/-- Modelled from the spec (§3): a CommitBundle is an ordered sequence of
proposed entries plus the captured chain-head reference believed current at
invocation start. -/
structure CommitBundle where
  capturedHead : ChainHash
  staged : List ChainEntry
deriving DecidableEq, Repr

/-- Modelled from the spec (§7): commit-time optimistic-concurrency
failure. -/
inductive CommitError where
  | StaleHead
deriving DecidableEq, Repr

/-- Modelled from the spec (§4.4 `Committing`): re-check the captured head
against the persisted head inside the write transaction; on mismatch fail
with `StaleHead` leaving the store unchanged; otherwise persist every
staged entry in bundle order and advance the head (by one per entry, the
spec leaving the hash function abstract). -/
def commitBundle (s : ChainStore) (b : CommitBundle) :
    Except CommitError Unit × ChainStore :=
  if b.capturedHead == s.head then
    (.ok (), { head := s.head + b.staged.length, entries := s.entries ++ b.staged })
  else
    (.error .StaleHead, s)

/-- Workflow events, for expressing "no write transaction was opened" and
"the head check is performed exactly once, with no retry". -/
inductive WfEvent where
  | captureHead
  | guestCall
  | openWriteTxn
  | headCheck
  | txnCommit
deriving DecidableEq, Repr

/-- Modelled from the spec (§4.4): the `Committing` phase — open one write
transaction and perform the stale-head check exactly once (there is no
retry construct; a `StaleHead` conflict is surfaced, never auto-retried). -/
def commitPhase (s : ChainStore) (b : CommitBundle) :
    (Except CommitError Unit × ChainStore) × List WfEvent :=
  (commitBundle s b, [WfEvent.openWriteTxn, WfEvent.headCheck])

/-- Guest output payloads, abstract. -/
abbrev GuestOutput := String

/-- Guest failures (trap, serialization error, capability-denied),
abstract. -/
abbrev GuestError := String

/-- Terminal workflow states, from the spec state machine
`Started → Executing → (Committing → Committed) | Aborted`. -/
inductive WorkflowResult where
  | Committed (out : GuestOutput)
  | Aborted (e : GuestError)
  | StaleAborted
deriving DecidableEq, Repr

/-- A fresh read transaction observing the persisted chain head. -/
def readHead (s : ChainStore) : ChainHash := s.head

/-- Modelled from the spec (§4.4 state machine): capture the head, run the
guest against a bundle seeded with it (the guest returns its result and the
bundle it staged into; on failure the bundle is discarded), and on success
enter `Committing`; on guest failure transition directly to `Aborted` with
no write transaction opened and storage untouched. -/
def runWorkflow (s : ChainStore)
    (guest : CommitBundle → Except GuestError GuestOutput × CommitBundle) :
    (WorkflowResult × ChainStore) × List WfEvent :=
  let b0 : CommitBundle := { capturedHead := s.head, staged := [] }
  match guest b0 with
  | (.error e, _) => ((.Aborted e, s), [WfEvent.captureHead, WfEvent.guestCall])
  | (.ok out, b) =>
      match commitBundle s b with
      | (.ok _, s1) =>
          ((.Committed out, s1),
           [WfEvent.captureHead, WfEvent.guestCall, WfEvent.openWriteTxn,
            WfEvent.headCheck, WfEvent.txnCommit])
      | (.error .StaleHead, s1) =>
          ((.StaleAborted, s1),
           [WfEvent.captureHead, WfEvent.guestCall, WfEvent.openWriteTxn,
            WfEvent.headCheck])

/-! ## Concrete worlds and extraction helpers used by the closed theorems -/

/-- A fresh process: empty registry, empty filesystem, no environmental
failures. -/
def emptyWorld : World :=
  { initializedDbs := []
    dirs := []
    createDirFails := fun _ => false
    connOpenFails := fun _ => false
    removeDirFails := fun _ => false
    nextConnId := 0
    initEvents := [] }

/-- Extraction helper for closed theorems: the connection of a successful
outcome (junk default otherwise; only ever applied to `ok` outcomes in the
concrete scenarios). -/
def getConn (o : Outcome DatabaseError DbConnection) : DbConnection :=
  match o with
  | .ok c => c
  | _ => { path := "", connId := 0 }

/-- Scenario for claims about repeated opens: first open at `/tmp/y`. -/
def openOnce : Outcome DatabaseError DbConnection × World :=
  dbNew emptyWorld "/tmp/y" .Wasm

/-- Second open at the same prefix and kind (same path). -/
def openTwice : Outcome DatabaseError DbConnection × World :=
  dbNew openOnce.2 "/tmp/y" .Wasm

/-- Scenario for the remove/re-open claim: open at `/tmp/x` for
`Conductor`. -/
def removeScenarioOpen1 : Outcome DatabaseError DbConnection × World :=
  dbNew emptyWorld "/tmp/x" .Conductor

/-- ... then `remove` the connection just obtained. -/
def removeScenarioRemoved : Outcome DatabaseError Unit × World :=
  dbRemove removeScenarioOpen1.2 (getConn removeScenarioOpen1.1)

/-- ... then open again at the same path. -/
def removeScenarioOpen2 : Outcome DatabaseError DbConnection × World :=
  dbNew removeScenarioRemoved.2 "/tmp/x" .Conductor

/-- World where the SQLite connection open fails for the cell path under
`/tmp/z` (directory creation itself succeeds). -/
def connFailWorld : World :=
  { emptyWorld with connOpenFails := fun p => p == "/tmp/z/dna::agent" }

/-- World where directory creation fails everywhere. -/
def dirFailWorld : World :=
  { emptyWorld with createDirFails := fun _ => true }

/-- World for the remove-failure claim: a registered path whose directory
deletion fails. -/
def removeFailWorld : World :=
  { emptyWorld with
      initializedDbs := ["/tmp/q"]
      dirs := ["/tmp/q"]
      removeDirFails := fun _ => true }

end HolochainSpec

namespace HolochainSpec

/-- C1: for every closure `f` and durable state, `with_commit f` commits the
write transaction before returning exactly when `f` returns `Ok` (the durable
state becomes the transaction's final state); when `f` returns `Err` the
transaction is rolled back, the durable state is unchanged and the original
error is returned untouched; and `f` is invoked exactly once, never retried. -/
theorem with_commit_commits_iff_ok {σ E R : Type} (d : σ) (f : σ → Except E (R × σ)) :
    callCount (withCommit d f).2 = 1 ∧
    (TxnEvent.commitTxn ∈ (withCommit d f).2 ↔ ∃ r t, f d = .ok (r, t)) ∧
    (∀ e, f d = .error e → (withCommit d f).1 = (.error e, d) ∧
      TxnEvent.rollbackTxn ∈ (withCommit d f).2) ∧
    (∀ r t, f d = .ok (r, t) → (withCommit d f).1 = (.ok r, t)) := by
  refine ⟨?_, ?_, ?_, ?_⟩
  · rcases hf : f d with e | ⟨r, t⟩ <;> simp [withCommit, callCount, hf]
  · rcases hf : f d with e | ⟨r, t⟩ <;> simp [withCommit, hf]
  · intro e he
    simp [withCommit, he]
  · intro r t h
    simp [withCommit, h]

/-- Witness for C1 at a concrete state and closure. -/
theorem with_commit_commits_iff_ok_witness :
    callCount (withCommit (σ := Nat) (E := String) 5
        (fun s => .ok (7, s + 1))).2 = 1 ∧
    (TxnEvent.commitTxn ∈ (withCommit (σ := Nat) (E := String) 5
        (fun s => .ok (7, s + 1))).2 ↔
      ∃ r t, (fun s => Except.ok (ε := String) (7, s + 1)) 5 = .ok (r, t)) ∧
    (∀ e, (fun s => Except.ok (ε := String) (7, s + 1)) 5 = .error e →
      (withCommit (σ := Nat) (E := String) 5 (fun s => .ok (7, s + 1))).1
        = (.error e, 5) ∧
      TxnEvent.rollbackTxn ∈ (withCommit (σ := Nat) (E := String) 5
        (fun s => .ok (7, s + 1))).2) ∧
    (∀ r t, (fun s => Except.ok (ε := String) (7, s + 1)) 5 = .ok (r, t) →
      (withCommit (σ := Nat) (E := String) 5
        (fun s => .ok (7, s + 1))).1 = (.ok r, t)) :=
  with_commit_commits_iff_ok 5 (fun s => .ok (7, s + 1))

/-- C6: `EnvironmentKind::path` is a total, deterministic pure function of
the kind: equal kinds give equal sub-paths, `Cell(cell_id)` maps to the
cell-id string, and `Conductor`, `Wasm`, `P2p` map to the fixed literals
`"conductor"`, `"wasm"`, `"p2p"`. -/
theorem environment_kind_path_total_deterministic :
    (∀ k₁ k₂ : EnvironmentKind, k₁ = k₂ → k₁.path = k₂.path) ∧
    (∀ cid : CellId, (EnvironmentKind.Cell cid).path = cid.display) ∧
    EnvironmentKind.Conductor.path = "conductor" ∧
    EnvironmentKind.Wasm.path = "wasm" ∧
    EnvironmentKind.P2p.path = "p2p" :=
  ⟨fun _ _ h => h ▸ rfl, fun _ => rfl, rfl, rfl, rfl⟩

/-- Witness for C6 at concrete kinds. -/
theorem environment_kind_path_total_deterministic_witness :
    EnvironmentKind.Conductor.path = "conductor" ∧
    (EnvironmentKind.Cell ⟨"dna", "agent"⟩).path = "dna::agent" :=
  ⟨environment_kind_path_total_deterministic.2.2.1,
   environment_kind_path_total_deterministic.2.1 ⟨"dna", "agent"⟩⟩

/-- Helper: a path never survives filtering by "not equal to that path". -/
theorem not_mem_filter_bne (l : List DbPath) (p : DbPath) :
    p ∉ l.filter (fun q => q != p) := by
  intro hmem
  rw [List.mem_filter] at hmem
  simp at hmem

/-- Helper: `get_or_create` returns the registered handle on a repeated
call for the same path. -/
theorem createLmdbEnv_repeat (m : RkvManager) (p : DbPath) :
    (createLmdbEnv (createLmdbEnv m p).2 p).1 = (createLmdbEnv m p).1 := by
  unfold createLmdbEnv
  cases hf : m.handles.find? (fun q => q.1 == p) with
  | some q => simp [hf]
  | none => simp [hf, List.find?]

/-- Helper: a successful `from_path_and_keystore` yields a connection on
the given path carrying the current fresh identity, and bumps the fresh
identity counter. -/
theorem fromPathAndKeystore_ok (w : World) (p : DbPath) (c : DbConnection)
    (h : (fromPathAndKeystore w p).1 = Outcome.ok c) :
    c = { path := p, connId := w.nextConnId } ∧
    (fromPathAndKeystore w p).2.nextConnId = w.nextConnId + 1 := by
  unfold fromPathAndKeystore at h ⊢
  by_cases hc : w.connOpenFails p
  · simp [hc] at h
  · simp [hc] at h ⊢
    exact h.symm

/-- Helper: a successful `DbConnection::new` yields a connection on the
joined path carrying the world's current fresh identity, and bumps the
fresh identity counter — every success path ends in a fresh
`Connection::open`. -/
theorem dbNew_ok (w : World) (root : DbPath) (kind : EnvironmentKind) (c : DbConnection)
    (h : (dbNew w root kind).1 = Outcome.ok c) :
    c = { path := pathJoin root kind.path, connId := w.nextConnId } ∧
    (dbNew w root kind).2.nextConnId = w.nextConnId + 1 := by
  unfold dbNew dbNewRegister at h ⊢
  by_cases h1 : pathJoin root kind.path ∈ w.dirs
  · simp only [h1, if_true] at h ⊢
    by_cases h3 : w.initializedDbs.contains (pathJoin root kind.path) <;>
      simp only [h3, Bool.not_true, Bool.not_false, if_true, if_false] at h ⊢ <;>
      exact fromPathAndKeystore_ok _ _ _ h
  · by_cases h2 : w.createDirFails (pathJoin root kind.path)
    · simp [h1, h2] at h
    · simp only [h1, h2, if_false, if_true] at h ⊢
      by_cases h3 : w.initializedDbs.contains (pathJoin root kind.path) <;>
        simp only [h3, Bool.not_true, Bool.not_false, if_true, if_false] at h ⊢ <;>
        exact fromPathAndKeystore_ok _ _ _ h

end HolochainSpec

namespace HolochainSpec

/-- C7: for any two `Cell` values, `a == b` holds iff their `CellId`s are
equal, equal `CellId`s give equal hashes under every hasher, and neither
equality nor hashing depends on the conductor API handle or the
`Environment` the cells carry. -/
theorem cell_eq_hash_by_id_only (a b : Cell) :
    (cellEq a b = true ↔ a.id = b.id) ∧
    (a.id = b.id → ∀ hasher : CellId → Nat, cellHash hasher a = cellHash hasher b) ∧
    (∀ (i : CellId) (api₁ api₂ : ConductorApiToken) (e₁ e₂ : DbConnection),
      cellEq { id := i, conductorApi := api₁, stateEnv := e₁ }
        { id := i, conductorApi := api₂, stateEnv := e₂ } = true ∧
      ∀ hasher : CellId → Nat,
        cellHash hasher { id := i, conductorApi := api₁, stateEnv := e₁ }
          = cellHash hasher { id := i, conductorApi := api₂, stateEnv := e₂ }) := by
  refine ⟨?_, ?_, ?_⟩
  · simp [cellEq]
  · intro h hasher
    simp [cellHash, h]
  · intro i api₁ api₂ e₁ e₂
    exact ⟨by simp [cellEq], fun hasher => rfl⟩

/-- Witness for C7: two cells with the same id but different API handles
and environments compare equal and hash alike. -/
theorem cell_eq_hash_by_id_only_witness :
    (cellEq { id := ⟨"d", "a"⟩, conductorApi := 0, stateEnv := ⟨"/p", 0⟩ }
        { id := ⟨"d", "a"⟩, conductorApi := 1, stateEnv := ⟨"/q", 7⟩ } = true ↔
      ({ dnaHash := "d", agentPubkey := "a" } : CellId) = ⟨"d", "a"⟩) ∧
    (({ dnaHash := "d", agentPubkey := "a" } : CellId) = ⟨"d", "a"⟩ →
      ∀ hasher : CellId → Nat,
        cellHash hasher { id := ⟨"d", "a"⟩, conductorApi := 0, stateEnv := ⟨"/p", 0⟩ }
          = cellHash hasher { id := ⟨"d", "a"⟩, conductorApi := 1, stateEnv := ⟨"/q", 7⟩ }) ∧
    (∀ (i : CellId) (api₁ api₂ : ConductorApiToken) (e₁ e₂ : DbConnection),
      cellEq { id := i, conductorApi := api₁, stateEnv := e₁ }
        { id := i, conductorApi := api₂, stateEnv := e₂ } = true ∧
      ∀ hasher : CellId → Nat,
        cellHash hasher { id := i, conductorApi := api₁, stateEnv := e₁ }
          = cellHash hasher { id := i, conductorApi := api₂, stateEnv := e₂ }) :=
  cell_eq_hash_by_id_only
    { id := ⟨"d", "a"⟩, conductorApi := 0, stateEnv := ⟨"/p", 0⟩ }
    { id := ⟨"d", "a"⟩, conductorApi := 1, stateEnv := ⟨"/q", 7⟩ }

/-- C2 (code evaluated at the failing input): on a fresh process, the FIRST
open of a path performs NO logical-table initialization, while the SECOND
open of the now-registered path DOES run `initialize_databases` — the
`if !added` guard in `DbConnection::new` is inverted with respect to the
claim (`HashSet::insert` returns `true` on first insertion). -/
theorem first_open_skips_initialization :
    (dbNew emptyWorld "/tmp/root" .Conductor).2.initEvents = [] ∧
    (dbNew (dbNew emptyWorld "/tmp/root" .Conductor).2 "/tmp/root" .Conductor).2.initEvents
      = [pathJoin "/tmp/root" EnvironmentKind.Conductor.path] ∧
    (dbNew emptyWorld "/tmp/root" .Conductor).1
      = Outcome.ok { path := "/tmp/root/conductor", connId := 0 } := by
  refine ⟨rfl, rfl, rfl⟩

/-- C3 counterexample: at a concrete fresh process, two opens of the very
same path yield connections with the same path but distinct underlying
connection identities (each open, and each clone, runs `Connection::open`
afresh) — refuting "backed by the identical underlying handle". -/
theorem two_opens_same_path_distinct_connections :
    (getConn openOnce.1).path = (getConn openTwice.1).path ∧
    (getConn openOnce.1).connId = 0 ∧
    (getConn openTwice.1).connId = 1 ∧
    (getConn (dbClone openTwice.2 (getConn openOnce.1)).1).connId = 2 := by
  refine ⟨rfl, rfl, rfl, rfl⟩

/-- C3 amended: two successive successful opens for the same path yield
`DbConnection`s on the same path but with distinct, independently opened
underlying connections; only the rkv-based `create_lmdb_env` registry
(`Manager::singleton().get_or_create`) returns the identical registered
handle on repeated calls for one path. -/
theorem same_path_opens_independent_connections
    (w : World) (root : DbPath) (kind : EnvironmentKind) (c₁ c₂ : DbConnection)
    (h₁ : (dbNew w root kind).1 = Outcome.ok c₁)
    (h₂ : (dbNew (dbNew w root kind).2 root kind).1 = Outcome.ok c₂) :
    c₁.path = c₂.path ∧ c₁.connId ≠ c₂.connId ∧
    ∀ (m : RkvManager) (p : DbPath),
      (createLmdbEnv (createLmdbEnv m p).2 p).1 = (createLmdbEnv m p).1 := by
  obtain ⟨hc₁, hn₁⟩ := dbNew_ok w root kind c₁ h₁
  obtain ⟨hc₂, _⟩ := dbNew_ok _ root kind c₂ h₂
  refine ⟨?_, ?_, createLmdbEnv_repeat⟩
  · rw [hc₁, hc₂]
  · rw [hc₁, hc₂]
    simp only [hn₁]
    omega

/-- Witness for C3 amended, at the concrete two-open scenario. -/
theorem same_path_opens_independent_connections_witness :
    (getConn openOnce.1).path = (getConn openTwice.1).path ∧
    (getConn openOnce.1).connId ≠ (getConn openTwice.1).connId ∧
    ∀ (m : RkvManager) (p : DbPath),
      (createLmdbEnv (createLmdbEnv m p).2 p).1 = (createLmdbEnv m p).1 :=
  same_path_opens_independent_connections emptyWorld "/tmp/y" .Wasm
    (getConn openOnce.1) (getConn openTwice.1) rfl rfl

/-- C4: if another commit advanced the persisted head away from the head an
in-flight bundle captured, committing that bundle fails with `StaleHead`,
the store still reflects the advanced head unchanged, and the head check is
performed exactly once per commit attempt (no automatic retry). -/
theorem stale_head_commit_rejected (s s' : ChainStore) (b bOther : CommitBundle)
    (hcap : b.capturedHead = s.head)
    (hadv : commitBundle s bOther = (.ok (), s'))
    (hne : bOther.staged ≠ []) :
    (commitPhase s' b).1 = (.error CommitError.StaleHead, s') ∧
    ((commitPhase s' b).2.filter (fun ev => ev == WfEvent.headCheck)).length = 1 := by
  have hs' : s'.head = s.head + bOther.staged.length := by
    unfold commitBundle at hadv
    by_cases hc : bOther.capturedHead == s.head
    · simp only [hc, if_true, Prod.mk.injEq] at hadv
      rw [← hadv.2]
    · simp [hc] at hadv
  have hlen : 0 < bOther.staged.length := List.length_pos.mpr hne
  have hneq : (b.capturedHead == s'.head) = false := by
    have hd : b.capturedHead ≠ s'.head := by
      rw [hcap, hs']
      exact Nat.ne_of_lt (Nat.lt_add_of_pos_right hlen)
    simpa using hd
  exact ⟨by simp [commitPhase, commitBundle, hneq], rfl⟩

/-- Witness for C4: head advanced from 0 to 1 by another bundle; the
bundle that captured head 0 is rejected with `StaleHead` and the store
keeps head 1. -/
theorem stale_head_commit_rejected_witness :
    (commitPhase { head := 1, entries := ["a"] } { capturedHead := 0, staged := ["b"] }).1
      = (.error CommitError.StaleHead, { head := 1, entries := ["a"] }) ∧
    ((commitPhase { head := 1, entries := ["a"] }
        { capturedHead := 0, staged := ["b"] }).2.filter
      (fun ev => ev == WfEvent.headCheck)).length = 1 :=
  stale_head_commit_rejected { head := 0, entries := [] } { head := 1, entries := ["a"] }
    { capturedHead := 0, staged := ["b"] } { capturedHead := 0, staged := ["a"] }
    rfl rfl (by simp)

/-- C5: when guest execution fails after staging any positive number of
entries, the workflow transitions to `Aborted` with no write transaction
opened: the store is returned unchanged and a fresh read still sees the
pre-invocation chain head. -/
theorem guest_failure_aborts_without_write_txn (s : ChainStore)
    (guest : CommitBundle → Except GuestError GuestOutput × CommitBundle)
    (e : GuestError) (b : CommitBundle)
    (hguest : guest { capturedHead := s.head, staged := [] } = (.error e, b))
    (hstaged : 0 < b.staged.length) :
    (runWorkflow s guest).1 = (WorkflowResult.Aborted e, s) ∧
    WfEvent.openWriteTxn ∉ (runWorkflow s guest).2 ∧
    readHead (runWorkflow s guest).1.2 = s.head := by
  refine ⟨?_, ?_, ?_⟩ <;> simp [runWorkflow, hguest, readHead]

/-- Witness for C5: a guest that stages one entry and then fails leaves
the store at its pre-invocation head with no write transaction event. -/
theorem guest_failure_aborts_without_write_txn_witness :
    (runWorkflow { head := 3, entries := ["x"] }
        (fun b => (.error "boom", { capturedHead := b.capturedHead, staged := ["y"] }))).1
      = (WorkflowResult.Aborted "boom", { head := 3, entries := ["x"] }) ∧
    WfEvent.openWriteTxn ∉ (runWorkflow { head := 3, entries := ["x"] }
        (fun b => (.error "boom", { capturedHead := b.capturedHead, staged := ["y"] }))).2 ∧
    readHead (runWorkflow { head := 3, entries := ["x"] }
        (fun b => (.error "boom", { capturedHead := b.capturedHead, staged := ["y"] }))).1.2
      = ({ head := 3, entries := ["x"] } : ChainStore).head :=
  guest_failure_aborts_without_write_txn { head := 3, entries := ["x"] }
    (fun b => (.error "boom", { capturedHead := b.capturedHead, staged := ["y"] }))
    "boom" { capturedHead := 3, staged := ["y"] } rfl (by simp)

/-- C8 (code evaluated at the scenario input): open at `/tmp/x` for
`Conductor`, `remove`, open again — the re-open succeeds on a freshly
created directory, but `initialize_databases` is never invoked (the
inverted `if !added` guard skips it because the registry entry was removed),
so the re-opened environment is NOT freshly initialized as the claim
requires. -/
theorem reopen_after_remove_skips_initialization :
    removeScenarioRemoved.1 = Outcome.ok () ∧
    removeScenarioRemoved.2.dirs = [] ∧
    removeScenarioOpen2.1 = Outcome.ok { path := "/tmp/x/conductor", connId := 1 } ∧
    removeScenarioOpen2.2.initEvents = [] := by
  refine ⟨rfl, rfl, rfl, rfl⟩

/-- C9 counterexample: a concrete input where the environment cannot be
opened (the SQLite `Connection::open` fails) and `Cell::create` panics via
`.expect(..)` instead of returning a construction error. -/
theorem cell_create_panics_on_conn_failure :
    (cellCreate connFailWorld { dnaHash := "dna", agentPubkey := "agent" } 0 "/tmp/z").1
      = Outcome.panicked := by
  rfl

/-- C9 amended: whenever `DbConnection::new` itself returns an error (the
on-disk directory cannot be created), `Cell::create` returns a construction
error wrapping it; but when the SQLite connection cannot be established,
`Cell::create` panics rather than returning an error. -/
theorem cell_create_propagates_db_error
    (w : World) (id : CellId) (api : ConductorApiToken) (envPath : DbPath)
    (e : DatabaseError)
    (h : (dbNew w envPath (.Cell id)).1 = Outcome.err e) :
    (cellCreate w id api envPath).1 = Outcome.err (CellError.DbError e) ∧
    (∀ w' : World, (dbNew w' envPath (.Cell id)).1 = Outcome.panicked →
      (cellCreate w' id api envPath).1 = Outcome.panicked) := by
  constructor
  · unfold cellCreate
    rcases hdb : dbNew w envPath (.Cell id) with ⟨o, w₁⟩
    rw [hdb] at h
    cases o <;> simp_all
  · intro w' hp
    unfold cellCreate
    rcases hdb : dbNew w' envPath (.Cell id) with ⟨o, w₁⟩
    rw [hdb] at hp
    cases o <;> simp_all

/-- Witness for C9 amended: directory creation fails, so the database
error `EnvironmentMissing` is wrapped into a construction error. -/
theorem cell_create_propagates_db_error_witness :
    (cellCreate dirFailWorld { dnaHash := "dna", agentPubkey := "agent" } 0 "/tmp/z").1
      = Outcome.err (CellError.DbError (DatabaseError.EnvironmentMissing "/tmp/z/dna::agent")) ∧
    (∀ w' : World,
      (dbNew w' "/tmp/z" (.Cell { dnaHash := "dna", agentPubkey := "agent" })).1
        = Outcome.panicked →
      (cellCreate w' { dnaHash := "dna", agentPubkey := "agent" } 0 "/tmp/z").1
        = Outcome.panicked) :=
  cell_create_propagates_db_error dirFailWorld { dnaHash := "dna", agentPubkey := "agent" }
    0 "/tmp/z" (DatabaseError.EnvironmentMissing "/tmp/z/dna::agent") rfl

/-- C10: `remove` deletes the path's registry entry before attempting the
directory deletion, so even when deletion fails and an error is returned,
the registry entry is already gone. -/
theorem remove_clears_registry_before_fs_delete (w : World) (c : DbConnection) :
    c.path ∉ (dbRemove w c).2.initializedDbs ∧
    (w.removeDirFails c.path = true →
      (dbRemove w c).1 = Outcome.err DatabaseError.IoError ∧
      c.path ∉ (dbRemove w c).2.initializedDbs) := by
  refine ⟨?_, fun hrm => ⟨?_, ?_⟩⟩
  · by_cases hrm : w.removeDirFails c.path <;>
      simp only [dbRemove, hrm, if_true, if_false, Bool.false_eq_true] <;>
      exact not_mem_filter_bne _ _
  · simp [dbRemove, hrm]
  · simp only [dbRemove, hrm, if_true]
    exact not_mem_filter_bne _ _

/-- Witness for C10: directory deletion fails, an error is returned, and
the registry no longer contains the path. -/
theorem remove_clears_registry_before_fs_delete_witness :
    ("/tmp/q" : DbPath) ∉ (dbRemove removeFailWorld ⟨"/tmp/q", 0⟩).2.initializedDbs ∧
    (removeFailWorld.removeDirFails "/tmp/q" = true) ∧
    (dbRemove removeFailWorld ⟨"/tmp/q", 0⟩).1 = Outcome.err DatabaseError.IoError :=
  ⟨(remove_clears_registry_before_fs_delete removeFailWorld ⟨"/tmp/q", 0⟩).1, rfl,
   ((remove_clears_registry_before_fs_delete removeFailWorld ⟨"/tmp/q", 0⟩).2 rfl).1⟩

end HolochainSpec
